import Mathlib

/-!
# Out-of-process crash daemon (`src/ndcrash_out_daemon.c`)

A shallow embedding of the daemon: every C function becomes a Lean function
that returns the list of calls it makes to the operating system and to the
collaborating modules, in program order.  What those calls answer is supplied
by an environment record, so each theorem quantifies over every answer the
operating system can give.  Logging (`NDCRASHLOG`) is not recorded.
-/

namespace NDCrash

/-- One byte travelling over the socket. -/
abbrev Byte := Nat

/-- A data pointer (`void *`); the null pointer is address zero. -/
abbrev Ptr := Nat

/-- The null data pointer. -/
def NULL : Ptr := 0

/-- A function pointer is identified by its code address; a null function
pointer is `none`. -/
abbrev FnPtr := Nat

/-- Modelled from the spec: `struct ndcrash_out_message` is declared in
`ndcrash_private.h`, which is not among the sources.  The fields are the six
the daemon reads: process id, thread id, signal number, signal code, fault
address and the register snapshot. -/
structure ndcrash_out_message where
  pid : Int
  tid : Int
  signo : Int
  si_code : Int
  faultaddr : Nat
  context : List Byte
deriving DecidableEq, Repr

/-- The `struct ndcrash_out_daemon_context` of the source.  `log_file` is a
C string pointer (`none` is the null pointer), `daemon_thread` is a
`pthread_t` compared against zero by the source. -/
structure ndcrash_out_daemon_context where
  unwind_function : Option FnPtr
  log_file : Option String
  interruptor : Int × Int
  daemon_thread : Nat
  start_callback : Option FnPtr
  crash_callback : Option FnPtr
  stop_callback : Option FnPtr
  callback_arg : Ptr
  socket_address : String
deriving DecidableEq, Repr

/-- The calls the daemon makes, with the arguments it passes. -/
inductive Event where
  | ptrace_attach (tid : Int)
  | waitpid (tid : Int)
  | ndcrash_dump_create_file (path : String)
  | ndcrash_dump_header (outfile : Int) (pid tid signo si_code : Int)
      (faultaddr : Nat) (context : List Byte)
  | unwind_function (f : FnPtr) (outfile : Int) (message : ndcrash_out_message)
  | ndcrash_dump_write_line (outfile : Int) (line : String)
  | close (fd : Int)
  | crash_callback (f : FnPtr) (log_file : Option String) (arg : Ptr)
  | ptrace_detach (tid : Int)
  | select (fd0 fd1 : Int)
  | recv (sock : Int) (offset len : Nat)
  | write (fd : Int) (bytes : List Byte)
  | socket
  | setsockopt (sock : Int)
  | bind (sock : Int) (address : String)
  | listen (sock : Int) (backlog : Int)
  | accept (sock : Int)
  | start_callback (f : FnPtr) (arg : Ptr)
  | stop_callback (f : FnPtr) (arg : Ptr)
  | ndcrash_out_fill_sockaddr (socket_name : String)
  | ndcrash_out_deinit
  | pipe
  | ndcrash_set_nonblock (fd : Int)
  | pthread_create
  | pthread_join (thread : Nat)
  | free_log_file
  | free_context
deriving DecidableEq, Repr

/-- What the operating system and the dump writer answer during one capture:
the return value of `ptrace(PTRACE_ATTACH, tid)`, of `waitpid(tid)` and of
`ndcrash_dump_create_file(path)`. -/
structure CaptureEnv where
  ptrace_attach : Int → Int
  waitpid : Int → Int
  ndcrash_dump_create_file : String → Int

/-- The descriptor the report is written to (`outfile` in the source): the
result of `ndcrash_dump_create_file` when a log file is set, `-1` otherwise. -/
def open_outfile (ctx : ndcrash_out_daemon_context) (env : CaptureEnv) : Int :=
  match ctx.log_file with
  | some path => env.ndcrash_dump_create_file path
  | none => -1

/-- The call `ndcrash_dump_create_file(log_file)`, made only when the log
file pointer is not null. -/
def create_file_calls (ctx : ndcrash_out_daemon_context) : List Event :=
  match ctx.log_file with
  | some path => [Event.ndcrash_dump_create_file path]
  | none => []

/-- The call `unwind_function(outfile, message)`, made only when the function
pointer is not null. -/
def unwind_calls (ctx : ndcrash_out_daemon_context) (outfile : Int)
    (message : ndcrash_out_message) : List Event :=
  match ctx.unwind_function with
  | some f => [Event.unwind_function f outfile message]
  | none => []

/-- The call `crash_callback(log_file, callback_arg)`, made only when the
callback pointer is not null. -/
def crash_callback_calls (ctx : ndcrash_out_daemon_context) : List Event :=
  match ctx.crash_callback with
  | some cb => [Event.crash_callback cb ctx.log_file ctx.callback_arg]
  | none => []

/-- The source function `ndcrash_out_daemon_do_unwinding`: attach, wait, dump, unwind,
detach.  The unwinder and the crash callback are calls into other modules;
they are recorded and assumed to return. -/
def ndcrash_out_daemon_do_unwinding (ctx : ndcrash_out_daemon_context)
    (env : CaptureEnv) (message : ndcrash_out_message) : List Event :=
  let attached : Bool := env.ptrace_attach message.tid != -1
  if !attached then
    [Event.ptrace_attach message.tid]
  else
    [Event.ptrace_attach message.tid, Event.waitpid message.tid]
    ++ (if env.waitpid message.tid < 0 then
          []
        else
          let outfile : Int := open_outfile ctx env
          create_file_calls ctx
          ++ [Event.ndcrash_dump_header outfile message.pid message.tid message.signo
                message.si_code message.faultaddr message.context]
          ++ unwind_calls ctx outfile message
          ++ [Event.ndcrash_dump_write_line outfile " "]
          ++ (if outfile ≥ 0 then
                [Event.close outfile] ++ crash_callback_calls ctx
              else
                []))
    ++ [Event.ptrace_detach message.tid]

/-- Recognises a request to detach. -/
def Event.isDetach : Event → Bool
  | Event.ptrace_detach _ => true
  | _ => false

/-- Recognises an invocation of the crash callback. -/
def Event.isCrashCallback : Event → Bool
  | Event.crash_callback _ _ _ => true
  | _ => false

/-- Modelled from the spec: the size and the field layout of
`struct ndcrash_out_message` come from `ndcrash_private.h`, which is not among
the sources.  `sizeof` is the fixed message size and `decode` reads the fields
out of a buffer of that size. -/
structure MessageLayout where
  sizeof : Nat
  decode : List Byte → ndcrash_out_message

/-- What the handler observes in one round of its receive loop.
`select_error`: `select` returned a negative value.  `interruptor_ready`:
`select` succeeded and `interruptor[0]` is in the ready set.  `recv_error`:
`recv` returned a negative value.  `recv_data available`: the socket is
readable with the bytes `available` pending; `recv` stores as many of them as
it was asked for and returns their number, so the empty list is a return
value of zero (the peer has closed). -/
inductive RecvStep where
  | select_error
  | interruptor_ready
  | recv_error
  | recv_data (available : List Byte)
deriving DecidableEq, Repr

/-- How the receive loop of the handler ends: with the whole message in the
buffer, with an early `close` and `return`, or still blocked in `select`
because nothing more has happened yet. -/
inductive ReceiveOutcome where
  | complete (buffer : List Byte)
  | closed
  | waiting
deriving DecidableEq, Repr

/-- The calls made by a piece of code, and whether it has returned. -/
structure Run where
  trace : List Event
  returned : Bool
deriving DecidableEq, Repr

/-- Storing `data` into the buffer at `offset`, as `recv` does with the
address `(char *)&message + overall_read`. -/
def store_at (buffer : List Byte) (offset : Nat) (data : List Byte) : List Byte :=
  buffer.take offset ++ data ++ buffer.drop (offset + data.length)

/-- The `do ... while (overall_read < sizeof(struct ndcrash_out_message))` loop
of `ndcrash_out_daemon_process_client`.  Each round consumes one observation. -/
def receive_loop (ctx : ndcrash_out_daemon_context) (sizeof : Nat) (clientsock : Int) :
    List RecvStep → List Byte → Nat → List Event × ReceiveOutcome
  | [], _, _ =>
    ([Event.select clientsock ctx.interruptor.1], ReceiveOutcome.waiting)
  | RecvStep.select_error :: _, _, _ =>
    ([Event.select clientsock ctx.interruptor.1, Event.close clientsock],
      ReceiveOutcome.closed)
  | RecvStep.interruptor_ready :: _, _, _ =>
    ([Event.select clientsock ctx.interruptor.1, Event.close clientsock],
      ReceiveOutcome.closed)
  | RecvStep.recv_error :: _, _, overall_read =>
    ([Event.select clientsock ctx.interruptor.1,
      Event.recv clientsock overall_read (sizeof - overall_read),
      Event.close clientsock], ReceiveOutcome.closed)
  | RecvStep.recv_data available :: rest, message, overall_read =>
    let len := sizeof - overall_read
    let received := available.take len
    let calls := [Event.select clientsock ctx.interruptor.1,
      Event.recv clientsock overall_read len]
    let stored := store_at message overall_read received
    let total := overall_read + received.length
    if total < sizeof then
      let next := receive_loop ctx sizeof clientsock rest stored total
      (calls ++ next.1, next.2)
    else
      (calls, ReceiveOutcome.complete stored)

/-- The source function `ndcrash_out_daemon_process_client`.  The message starts
zeroed (`= { 0, 0 }`). -/
def ndcrash_out_daemon_process_client (ctx : ndcrash_out_daemon_context)
    (layout : MessageLayout) (clientsock : Int) (session : List RecvStep)
    (env : CaptureEnv) : Run :=
  match receive_loop ctx layout.sizeof clientsock session (List.replicate layout.sizeof 0) 0 with
  | (calls, ReceiveOutcome.complete message) =>
    { trace := calls
        ++ ndcrash_out_daemon_do_unwinding ctx env (layout.decode message)
        ++ [Event.write clientsock [0], Event.close clientsock],
      returned := true }
  | (calls, ReceiveOutcome.closed) => { trace := calls, returned := true }
  | (calls, ReceiveOutcome.waiting) => { trace := calls, returned := false }

/-- Modelled from the spec: `enum ndcrash_error` is declared in `ndcrash.h`,
which is not among the sources.  These are the six outcomes that
`ndcrash_out_start_daemon` returns, each a distinct enumerator. -/
inductive ndcrash_error where
  | ndcrash_ok
  | ndcrash_error_already_initialized
  | ndcrash_error_not_supported
  | ndcrash_error_pipe
  | ndcrash_error_thread
  | ndcrash_error_socket_name
deriving DecidableEq, Repr

/-- The arguments of `ndcrash_out_start_daemon`.  The two strings are C string
pointers, `none` being the null pointer; `unwinder` is the enumerator value. -/
structure StartArgs where
  socket_name : Option String
  unwinder : Int
  log_file : Option String
  start_callback : Option FnPtr
  crash_callback : Option FnPtr
  stop_callback : Option FnPtr
  callback_arg : Ptr

/-- What `ndcrash_out_start_daemon` depends on outside the source file.
`unwinder_table` is the build configuration: the unwind function that the
`switch` assigns for each selector compiled in, `none` for every other
selector.  `ndcrash_out_fill_sockaddr` is the address resolver.
`ndcrash_out_deinit` is what that function, defined in another file, does to
the daemon singleton.  `pipe` and `pthread_create` are return values;
`pipe_fds` and `thread_handle` are what those calls store on success.
`ndcrash_set_nonblock` is the answer of the helper for each descriptor.
`write` is the return value of a `write` to the pipe. -/
structure StartEnv where
  unwinder_table : Int → Option FnPtr
  ndcrash_out_fill_sockaddr : String → String
  ndcrash_out_deinit : Option ndcrash_out_daemon_context → Option ndcrash_out_daemon_context
  pipe : Int
  pipe_fds : Int × Int
  ndcrash_set_nonblock : Int → Bool
  pthread_create : Int
  thread_handle : Nat
  write : Int

/-- Outcome of `ndcrash_out_stop_daemon`: the returned flag, the singleton
afterwards and the calls made. -/
structure StopResult where
  result : Bool
  inst : Option ndcrash_out_daemon_context
  trace : List Event
deriving DecidableEq, Repr

/-- Outcome of `ndcrash_out_start_daemon`: the returned code, the singleton
afterwards and the calls made. -/
structure StartResult where
  result : ndcrash_error
  inst : Option ndcrash_out_daemon_context
  trace : List Event
deriving DecidableEq, Repr

/-- The tail of `ndcrash_out_stop_daemon`: the log file path and the context
are freed and the global pointer is set to null. -/
def release_context (ctx : ndcrash_out_daemon_context) (calls : List Event) : StopResult :=
  { result := true, inst := none,
    trace := calls
      ++ (match ctx.log_file with
        | some _ => [Event.free_log_file]
        | none => [])
      ++ [Event.free_context] }

/-- The source function `ndcrash_out_stop_daemon`.  `write_result` is the return
value of the `write` to `interruptor[1]`; `pthread_join` is assumed to return. -/
def ndcrash_out_stop_daemon (write_result : Int)
    (inst : Option ndcrash_out_daemon_context) : StopResult :=
  match inst with
  | none => { result := false, inst := none, trace := [] }
  | some ctx =>
    if ctx.daemon_thread ≠ 0 then
      if write_result < 0 then
        { result := false, inst := some ctx, trace := [Event.write ctx.interruptor.2 [0]] }
      else
        release_context ctx
          [Event.write ctx.interruptor.2 [0], Event.pthread_join ctx.daemon_thread,
            Event.close ctx.interruptor.1, Event.close ctx.interruptor.2]
    else
      release_context ctx []

/-- The source function `ndcrash_out_get_daemon_callbacks_arg`. -/
def ndcrash_out_get_daemon_callbacks_arg (inst : Option ndcrash_out_daemon_context) : Ptr :=
  match inst with
  | none => NULL
  | some ctx => ctx.callback_arg

/-- The argument of the outer `ndcrash_set_nonblock` call in the pipe check of
the source, `interruptor[0] || !ndcrash_set_nonblock(interruptor[1])`: a C
truth value, with the calls its evaluation makes.  The right operand is
evaluated only when `interruptor[0]` is zero. -/
def nonblock_argument (env : StartEnv) (interruptor : Int × Int) : Int × List Event :=
  if interruptor.1 ≠ 0 then
    (1, [])
  else
    (if !env.ndcrash_set_nonblock interruptor.2 then 1 else 0,
      [Event.ndcrash_set_nonblock interruptor.2])

/-- The source function `ndcrash_out_start_daemon`.  `malloc` is assumed to
succeed, as the source assumes.  When `pthread_create` fails the thread handle
in the context is left as it was. -/
def ndcrash_out_start_daemon (env : StartEnv) (inst : Option ndcrash_out_daemon_context)
    (args : StartArgs) : StartResult :=
  match inst with
  | some ctx =>
    { result := ndcrash_error.ndcrash_error_already_initialized, inst := some ctx, trace := [] }
  | none =>
    match args.socket_name with
    | none => { result := ndcrash_error.ndcrash_error_socket_name, inst := none, trace := [] }
    | some socket_name =>
      if socket_name = "" then
        { result := ndcrash_error.ndcrash_error_socket_name, inst := none, trace := [] }
      else
        let ctx0 : ndcrash_out_daemon_context :=
          { unwind_function := env.unwinder_table args.unwinder,
            log_file := none,
            interruptor := (0, 0),
            daemon_thread := 0,
            start_callback := args.start_callback,
            crash_callback := args.crash_callback,
            stop_callback := args.stop_callback,
            callback_arg := args.callback_arg,
            socket_address := env.ndcrash_out_fill_sockaddr socket_name }
        let calls0 := [Event.ndcrash_out_fill_sockaddr socket_name]
        match ctx0.unwind_function with
        | none =>
          { result := ndcrash_error.ndcrash_error_not_supported,
            inst := env.ndcrash_out_deinit (some ctx0),
            trace := calls0 ++ [Event.ndcrash_out_deinit] }
        | some _ =>
          let ctx1 : ndcrash_out_daemon_context :=
            { ctx0 with log_file :=
                match args.log_file with
                | some log_file => if log_file.length ≠ 0 then some log_file else none
                | none => none }
          if env.pipe < 0 then
            let stopped := ndcrash_out_stop_daemon env.write (some ctx1)
            { result := ndcrash_error.ndcrash_error_pipe, inst := stopped.inst,
              trace := calls0 ++ [Event.pipe] ++ stopped.trace }
          else
            let ctx2 : ndcrash_out_daemon_context := { ctx1 with interruptor := env.pipe_fds }
            let inner := nonblock_argument env ctx2.interruptor
            let calls2 := calls0 ++ [Event.pipe] ++ inner.2
              ++ [Event.ndcrash_set_nonblock inner.1]
            if !env.ndcrash_set_nonblock inner.1 then
              let stopped := ndcrash_out_stop_daemon env.write (some ctx2)
              { result := ndcrash_error.ndcrash_error_pipe, inst := stopped.inst,
                trace := calls2 ++ stopped.trace }
            else if env.pthread_create ≠ 0 then
              { result := ndcrash_error.ndcrash_error_thread, inst := some ctx2,
                trace := calls2 ++ [Event.pthread_create] }
            else
              { result := ndcrash_error.ndcrash_ok,
                inst := some { ctx2 with daemon_thread := env.thread_handle },
                trace := calls2 ++ [Event.pthread_create] }

/-! ## Vocabulary of the statements -/

/-- Recognises a request to attach. -/
def Event.isAttach : Event → Bool
  | Event.ptrace_attach _ => true
  | _ => false

/-- The reads the handler is expected to issue while the fragments
`fragments` arrive, `received` bytes being already in the buffer: before each
fragment one `select` and one `recv` that asks, at the offset reached so
far, for exactly the bytes still missing. -/
def read_requests (ctx : ndcrash_out_daemon_context) (clientsock : Int) (sizeof : Nat) :
    Nat → List (List Byte) → List Event
  | _, [] => []
  | received, fragment :: fragments =>
    Event.select clientsock ctx.interruptor.1
      :: Event.recv clientsock received (sizeof - received)
      :: read_requests ctx clientsock sizeof (received + fragment.length) fragments

/-- Recognises a request for non-blocking mode. -/
def Event.isSetNonblock : Event → Bool
  | Event.ndcrash_set_nonblock _ => true
  | _ => false

/-- A context as a successful start leaves it: unwinder bound, log file set,
pipe on descriptors 3 and 4, thread running. -/
def sample_context : ndcrash_out_daemon_context :=
  { unwind_function := some 4096,
    log_file := some "/data/crash.txt",
    interruptor := (3, 4),
    daemon_thread := 77,
    start_callback := some 8192,
    crash_callback := some 8200,
    stop_callback := some 8208,
    callback_arg := 500,
    socket_address := "ndcrash" }

/-- A crash message for thread 42 of process 41, signal 11. -/
def sample_message : ndcrash_out_message :=
  { pid := 41, tid := 42, signo := 11, si_code := 1, faultaddr := 0, context := [1, 2] }

/-- A capture in which everything succeeds and the report is descriptor 9. -/
def sample_capture : CaptureEnv :=
  { ptrace_attach := fun _ => 0, waitpid := fun tid => tid,
    ndcrash_dump_create_file := fun _ => 9 }

/-- A capture in which the attach succeeds and the wait fails. -/
def sample_capture_no_stop : CaptureEnv :=
  { ptrace_attach := fun _ => 0, waitpid := fun _ => -1,
    ndcrash_dump_create_file := fun _ => 9 }

/-- A four-byte message layout that reads pid, tid, signo and si_code from
the four bytes. -/
def sample_layout : MessageLayout :=
  { sizeof := 4,
    decode := fun bytes =>
      { pid := bytes.getD 0 0, tid := bytes.getD 1 0, signo := bytes.getD 2 0,
        si_code := bytes.getD 3 0, faultaddr := 0, context := [] } }

/-- Arguments of a well-formed start. -/
def sample_args : StartArgs :=
  { socket_name := some "ndcrash",
    unwinder := 1,
    log_file := some "/data/crash.txt",
    start_callback := some 8192,
    crash_callback := some 8200,
    stop_callback := some 8208,
    callback_arg := 500 }

/-- A build with the single unwinder 1, in which every call succeeds and the
pipe gets descriptors 3 and 4. -/
def sample_env : StartEnv :=
  { unwinder_table := fun u => if u = 1 then some 4096 else none,
    ndcrash_out_fill_sockaddr := fun name => name,
    ndcrash_out_deinit := fun inst => inst,
    pipe := 0,
    pipe_fds := (3, 4),
    ndcrash_set_nonblock := fun _ => true,
    pthread_create := 0,
    thread_handle := 77,
    write := 1 }

/-- As `sample_env`, but `pthread_create` fails with `EAGAIN` (11). -/
def sample_env_thread_failure : StartEnv :=
  { sample_env with pthread_create := 11 }

/-- As `sample_env`, but non-blocking mode can be set on descriptor 1 only:
it fails on both ends of the pipe. -/
def sample_env_nonblock_failure : StartEnv :=
  { sample_env with ndcrash_set_nonblock := fun fd => decide (fd = 1) }

/-- When the attach is refused the attach request is the only call. -/
theorem do_unwinding_of_attach_failed (ctx : ndcrash_out_daemon_context)
    (env : CaptureEnv) (message : ndcrash_out_message)
    (hattach : env.ptrace_attach message.tid = -1) :
    ndcrash_out_daemon_do_unwinding ctx env message = [Event.ptrace_attach message.tid] := by
  simp [ndcrash_out_daemon_do_unwinding, hattach]

/-- When the attach succeeds and the wait fails, the pipeline goes straight to
the detach. -/
theorem do_unwinding_of_wait_failed (ctx : ndcrash_out_daemon_context)
    (env : CaptureEnv) (message : ndcrash_out_message)
    (hattach : env.ptrace_attach message.tid ≠ -1)
    (hwait : env.waitpid message.tid < 0) :
    ndcrash_out_daemon_do_unwinding ctx env message
      = [Event.ptrace_attach message.tid, Event.waitpid message.tid,
          Event.ptrace_detach message.tid] := by
  simp [ndcrash_out_daemon_do_unwinding, hattach, hwait]

/-- When the attach and the wait succeed, the pipeline makes the calls of the
dump between the wait and the detach. -/
theorem do_unwinding_of_stopped (ctx : ndcrash_out_daemon_context)
    (env : CaptureEnv) (message : ndcrash_out_message)
    (hattach : env.ptrace_attach message.tid ≠ -1)
    (hwait : 0 ≤ env.waitpid message.tid) :
    ndcrash_out_daemon_do_unwinding ctx env message
      = [Event.ptrace_attach message.tid, Event.waitpid message.tid]
        ++ create_file_calls ctx
        ++ [Event.ndcrash_dump_header (open_outfile ctx env) message.pid message.tid
              message.signo message.si_code message.faultaddr message.context]
        ++ unwind_calls ctx (open_outfile ctx env) message
        ++ [Event.ndcrash_dump_write_line (open_outfile ctx env) " "]
        ++ (if 0 ≤ open_outfile ctx env then
              Event.close (open_outfile ctx env) :: crash_callback_calls ctx
            else [])
        ++ [Event.ptrace_detach message.tid] := by
  have hw : ¬ env.waitpid message.tid < 0 := not_lt.mpr hwait
  simp [ndcrash_out_daemon_do_unwinding, hattach, hw]

/-- No call of the dump, the unwinder or the crash callback is a detach. -/
theorem filter_isDetach_dump (ctx : ndcrash_out_daemon_context) (outfile : Int)
    (message : ndcrash_out_message) :
    (create_file_calls ctx).filter Event.isDetach = []
      ∧ (unwind_calls ctx outfile message).filter Event.isDetach = []
      ∧ (crash_callback_calls ctx).filter Event.isDetach = [] := by
  unfold create_file_calls unwind_calls crash_callback_calls
  refine ⟨?_, ?_, ?_⟩
  · cases ctx.log_file <;> simp [Event.isDetach]
  · cases ctx.unwind_function <;> simp [Event.isDetach]
  · cases ctx.crash_callback <;> simp [Event.isDetach]

/-- C1: in `ndcrash_out_daemon_do_unwinding`, whatever attach, wait and file
creation answer, the detach requests made are exactly one request on the
message's thread id when the attach succeeded and none when it failed; and
when the attach failed the attach request is the only call made at all. -/
theorem do_unwinding_detach_iff_attached (ctx : ndcrash_out_daemon_context)
    (env : CaptureEnv) (message : ndcrash_out_message) :
    (ndcrash_out_daemon_do_unwinding ctx env message).filter Event.isDetach
        = (if env.ptrace_attach message.tid = -1 then []
           else [Event.ptrace_detach message.tid])
      ∧ (env.ptrace_attach message.tid = -1 →
          ndcrash_out_daemon_do_unwinding ctx env message
            = [Event.ptrace_attach message.tid]) := by
  refine ⟨?_, do_unwinding_of_attach_failed ctx env message⟩
  by_cases hattach : env.ptrace_attach message.tid = -1
  · rw [do_unwinding_of_attach_failed ctx env message hattach]
    simp [hattach, Event.isDetach]
  · rw [if_neg hattach]
    by_cases hwait : env.waitpid message.tid < 0
    · rw [do_unwinding_of_wait_failed ctx env message hattach hwait]
      simp [Event.isDetach]
    · rw [do_unwinding_of_stopped ctx env message hattach (not_lt.mp hwait)]
      obtain ⟨h1, h2, h3⟩ := filter_isDetach_dump ctx (open_outfile ctx env) message
      by_cases hopen : 0 ≤ open_outfile ctx env
      · simp [List.filter_append, List.filter_cons, h1, h2, h3, hopen, Event.isDetach]
      · simp [List.filter_append, List.filter_cons, h1, h2, hopen, Event.isDetach]

/-- Neither creating the file nor unwinding invokes the crash callback. -/
theorem filter_isCrashCallback_dump (ctx : ndcrash_out_daemon_context) (outfile : Int)
    (message : ndcrash_out_message) :
    (create_file_calls ctx).filter Event.isCrashCallback = []
      ∧ (unwind_calls ctx outfile message).filter Event.isCrashCallback = [] := by
  unfold create_file_calls unwind_calls
  refine ⟨?_, ?_⟩
  · cases ctx.log_file <;> simp [Event.isCrashCallback]
  · cases ctx.unwind_function <;> simp [Event.isCrashCallback]

/-- C8: in `ndcrash_out_daemon_do_unwinding` the crash callback is invoked exactly
once, with the configured log file path and the user argument, right after
the report file is closed and right before the detach, when the attach and
the wait succeeded, a log file path is configured, the file was opened
(descriptor at least zero) and a crash callback is set; in every other case
it is not invoked. -/
theorem crash_callback_once_iff (ctx : ndcrash_out_daemon_context)
    (env : CaptureEnv) (message : ndcrash_out_message) :
    (∀ path cb, env.ptrace_attach message.tid ≠ -1 → 0 ≤ env.waitpid message.tid →
        ctx.log_file = some path → 0 ≤ env.ndcrash_dump_create_file path →
        ctx.crash_callback = some cb →
        (ndcrash_out_daemon_do_unwinding ctx env message).filter Event.isCrashCallback
            = [Event.crash_callback cb (some path) ctx.callback_arg]
          ∧ ∃ before, ndcrash_out_daemon_do_unwinding ctx env message
              = before ++ [Event.close (env.ndcrash_dump_create_file path),
                  Event.crash_callback cb (some path) ctx.callback_arg,
                  Event.ptrace_detach message.tid])
      ∧ (¬ (env.ptrace_attach message.tid ≠ -1 ∧ 0 ≤ env.waitpid message.tid
            ∧ (∃ path, ctx.log_file = some path ∧ 0 ≤ env.ndcrash_dump_create_file path)
            ∧ ctx.crash_callback ≠ none) →
          (ndcrash_out_daemon_do_unwinding ctx env message).filter Event.isCrashCallback
            = []) := by
  constructor
  · intro path cb hattach hwait hlog hopen hcb
    have hout : open_outfile ctx env = env.ndcrash_dump_create_file path := by
      simp [open_outfile, hlog]
    have hcalls : crash_callback_calls ctx
        = [Event.crash_callback cb (some path) ctx.callback_arg] := by
      simp [crash_callback_calls, hcb, hlog]
    obtain ⟨h1, h2⟩ := filter_isCrashCallback_dump ctx (env.ndcrash_dump_create_file path) message
    rw [do_unwinding_of_stopped ctx env message hattach hwait, hout, hcalls, if_pos hopen]
    constructor
    · simp [List.filter_append, List.filter_cons, h1, h2, Event.isCrashCallback]
    · refine ⟨[Event.ptrace_attach message.tid, Event.waitpid message.tid]
          ++ create_file_calls ctx
          ++ [Event.ndcrash_dump_header (env.ndcrash_dump_create_file path) message.pid
                message.tid message.signo message.si_code message.faultaddr message.context]
          ++ unwind_calls ctx (env.ndcrash_dump_create_file path) message
          ++ [Event.ndcrash_dump_write_line (env.ndcrash_dump_create_file path) " "], ?_⟩
      simp
  · intro hnot
    by_cases hattach : env.ptrace_attach message.tid = -1
    · rw [do_unwinding_of_attach_failed ctx env message hattach]
      simp [Event.isCrashCallback]
    by_cases hwait : env.waitpid message.tid < 0
    · rw [do_unwinding_of_wait_failed ctx env message hattach hwait]
      simp [Event.isCrashCallback]
    obtain ⟨h1, h2⟩ := filter_isCrashCallback_dump ctx (open_outfile ctx env) message
    rw [do_unwinding_of_stopped ctx env message hattach (not_lt.mp hwait)]
    by_cases hopen : 0 ≤ open_outfile ctx env
    · have hcalls : crash_callback_calls ctx = [] := by
        cases hcb : ctx.crash_callback with
        | none => simp [crash_callback_calls, hcb]
        | some cb =>
          exfalso
          apply hnot
          refine ⟨hattach, not_lt.mp hwait, ?_, by simp [hcb]⟩
          cases hlog : ctx.log_file with
          | none => simp [open_outfile, hlog] at hopen
          | some path => exact ⟨path, rfl, by simpa [open_outfile, hlog] using hopen⟩
      simp [List.filter_append, List.filter_cons, h1, h2, hopen, hcalls, Event.isCrashCallback]
    · simp [List.filter_append, List.filter_cons, h1, h2, hopen, Event.isCrashCallback]

/-- C10: in `ndcrash_out_daemon_do_unwinding`, with the attach succeeded and an unwind
function bound: when the wait fails, nothing happens between the wait and
the detach; when the wait succeeds and no log file is configured, header,
unwind and the line " " go to the sink `-1` and nothing is created or closed;
when a log file is configured, the file is created first, then header (with
the six fields of the message), unwind (with the whole message) and the line
" " go to the descriptor the creation returned, and that descriptor is
closed exactly when it is at least zero. -/
theorem do_unwinding_steps_in_order (ctx : ndcrash_out_daemon_context)
    (env : CaptureEnv) (message : ndcrash_out_message) (f : FnPtr)
    (hattach : env.ptrace_attach message.tid ≠ -1)
    (hbound : ctx.unwind_function = some f) :
    (env.waitpid message.tid < 0 →
        ndcrash_out_daemon_do_unwinding ctx env message
          = [Event.ptrace_attach message.tid, Event.waitpid message.tid,
              Event.ptrace_detach message.tid])
      ∧ (0 ≤ env.waitpid message.tid → ctx.log_file = none →
        ndcrash_out_daemon_do_unwinding ctx env message
          = [Event.ptrace_attach message.tid, Event.waitpid message.tid,
              Event.ndcrash_dump_header (-1) message.pid message.tid message.signo
                message.si_code message.faultaddr message.context,
              Event.unwind_function f (-1) message,
              Event.ndcrash_dump_write_line (-1) " ",
              Event.ptrace_detach message.tid])
      ∧ (∀ path, 0 ≤ env.waitpid message.tid → ctx.log_file = some path →
        ∃ callbacks, (∀ e ∈ callbacks, e.isCrashCallback = true) ∧
          ndcrash_out_daemon_do_unwinding ctx env message
            = [Event.ptrace_attach message.tid, Event.waitpid message.tid,
                Event.ndcrash_dump_create_file path,
                Event.ndcrash_dump_header (env.ndcrash_dump_create_file path) message.pid
                  message.tid message.signo message.si_code message.faultaddr
                  message.context,
                Event.unwind_function f (env.ndcrash_dump_create_file path) message,
                Event.ndcrash_dump_write_line (env.ndcrash_dump_create_file path) " "]
              ++ (if 0 ≤ env.ndcrash_dump_create_file path then
                    Event.close (env.ndcrash_dump_create_file path) :: callbacks
                  else [])
              ++ [Event.ptrace_detach message.tid]) := by
  refine ⟨do_unwinding_of_wait_failed ctx env message hattach, ?_, ?_⟩
  · intro hwait hlog
    rw [do_unwinding_of_stopped ctx env message hattach hwait]
    simp [open_outfile, create_file_calls, unwind_calls, hlog, hbound]
  · intro path hwait hlog
    refine ⟨crash_callback_calls ctx, ?_, ?_⟩
    · intro e he
      unfold crash_callback_calls at he
      cases hcb : ctx.crash_callback with
      | none => simp [hcb] at he
      | some cb =>
        simp [hcb] at he
        simp [he, Event.isCrashCallback]
    · rw [do_unwinding_of_stopped ctx env message hattach hwait]
      simp [open_outfile, create_file_calls, unwind_calls, hlog, hbound]

/-! ## The client session handler -/

/-- Loop invariant of the receive loop while fragments that fit arrive: the
reads requested are the expected ones and the loop ends with the buffer
holding what it held below the offset followed by the fragments. -/
theorem receive_loop_fragments (ctx : ndcrash_out_daemon_context) (sizeof : Nat)
    (clientsock : Int) (rest : List RecvStep) :
    ∀ (fragments : List (List Byte)) (buffer : List Byte) (received : Nat),
      fragments ≠ [] → (∀ fragment ∈ fragments, fragment ≠ []) →
      received + fragments.flatten.length = sizeof → buffer.length = sizeof →
      receive_loop ctx sizeof clientsock (fragments.map RecvStep.recv_data ++ rest)
          buffer received
        = (read_requests ctx clientsock sizeof received fragments,
            ReceiveOutcome.complete (buffer.take received ++ fragments.flatten)) := by
  intro fragments
  induction fragments with
  | nil => intro _ _ h; exact absurd rfl h
  | cons fragment fragments ih =>
    intro buffer received _ hpos hsum hlen
    have hfit : fragment.length ≤ sizeof - received := by
      simp only [List.flatten_cons, List.length_append] at hsum
      omega
    have htake : List.take (sizeof - received) fragment = fragment :=
      List.take_of_length_le hfit
    simp only [List.map_cons, List.cons_append, receive_loop, htake, read_requests]
    by_cases hnil : fragments = []
    · subst hnil
      have htotal : received + fragment.length = sizeof := by simpa using hsum
      have hdrop : List.drop (received + fragment.length) buffer = [] :=
        List.drop_eq_nil_of_le (by omega)
      simp [htotal, store_at, read_requests]
      omega
    · have hnext : ∀ fr ∈ fragments, fr ≠ [] := fun fr hfr =>
        hpos fr (List.mem_cons_of_mem _ hfr)
      have hmore : 0 < fragments.flatten.length := by
        cases fragments with
        | nil => exact absurd rfl hnil
        | cons g gs =>
          have hg : g ≠ [] := hnext g (List.mem_cons_self _ _)
          have : 0 < g.length := List.length_pos.mpr hg
          simp only [List.flatten_cons, List.length_append]
          omega
      have hlt : received + fragment.length < sizeof := by
        simp only [List.flatten_cons, List.length_append] at hsum
        omega
      have hstored : (store_at buffer received fragment).length = sizeof := by
        simp only [store_at, List.length_append, List.length_take, List.length_drop]
        omega
      have hsum2 : received + fragment.length + fragments.flatten.length = sizeof := by
        simp only [List.flatten_cons, List.length_append] at hsum
        omega
      have hprefix : List.take (received + fragment.length) (store_at buffer received fragment)
          = List.take received buffer ++ fragment := by
        have hl : (List.take received buffer ++ fragment).length
            = received + fragment.length := by
          simp only [List.length_append, List.length_take]
          omega
        unfold store_at
        rw [← hl]
        exact List.take_left _ _
      rw [if_pos hlt]
      simp only [List.append_eq]
      rw [ih (store_at buffer received fragment) (received + fragment.length)
        hnil hnext hsum2 hstored, hprefix]
      simp

/-- The reads contain no attach request. -/
theorem filter_isAttach_read_requests (ctx : ndcrash_out_daemon_context) (clientsock : Int)
    (sizeof : Nat) :
    ∀ (fragments : List (List Byte)) (received : Nat),
      (read_requests ctx clientsock sizeof received fragments).filter Event.isAttach = [] := by
  intro fragments
  induction fragments with
  | nil => intro _; rfl
  | cons fragment fragments ih =>
    intro received
    simp [read_requests, List.filter_cons, Event.isAttach, ih]

/-- The capture pipeline requests exactly one attach, on the message's thread. -/
theorem filter_isAttach_do_unwinding (ctx : ndcrash_out_daemon_context)
    (env : CaptureEnv) (message : ndcrash_out_message) :
    (ndcrash_out_daemon_do_unwinding ctx env message).filter Event.isAttach
      = [Event.ptrace_attach message.tid] := by
  by_cases hattach : env.ptrace_attach message.tid = -1
  · rw [do_unwinding_of_attach_failed ctx env message hattach]
    simp [Event.isAttach]
  by_cases hwait : env.waitpid message.tid < 0
  · rw [do_unwinding_of_wait_failed ctx env message hattach hwait]
    simp [Event.isAttach]
  rw [do_unwinding_of_stopped ctx env message hattach (not_lt.mp hwait)]
  have h1 : (create_file_calls ctx).filter Event.isAttach = [] := by
    unfold create_file_calls
    cases ctx.log_file <;> simp [Event.isAttach]
  have h2 : (unwind_calls ctx (open_outfile ctx env) message).filter Event.isAttach = [] := by
    unfold unwind_calls
    cases ctx.unwind_function <;> simp [Event.isAttach]
  have h3 : (crash_callback_calls ctx).filter Event.isAttach = [] := by
    unfold crash_callback_calls
    cases ctx.crash_callback <;> simp [Event.isAttach]
  by_cases hopen : 0 ≤ open_outfile ctx env
  · simp [List.filter_append, List.filter_cons, h1, h2, h3, hopen, Event.isAttach]
  · simp [List.filter_append, List.filter_cons, h1, h2, hopen, Event.isAttach]

/-- C2: in `ndcrash_out_daemon_process_client`, when the reads return the non-empty
fragments `fragments`, which together are exactly one message, the handler
issues for each fragment a `recv` asking for exactly the bytes still missing,
then runs the capture pipeline on the message decoded from the fragments
concatenated in arrival order (one attach request in the whole session, so
the pipeline runs once), then writes the single byte zero to the client, then
closes the connection and returns, whatever the pipeline observes. -/
theorem process_client_full_message (ctx : ndcrash_out_daemon_context)
    (layout : MessageLayout) (clientsock : Int) (env : CaptureEnv)
    (fragments : List (List Byte)) (rest : List RecvStep)
    (hpos : ∀ fragment ∈ fragments, fragment ≠ [])
    (hsum : fragments.flatten.length = layout.sizeof)
    (hsize : 0 < layout.sizeof) :
    ndcrash_out_daemon_process_client ctx layout clientsock
        (fragments.map RecvStep.recv_data ++ rest) env
      = { trace := read_requests ctx clientsock layout.sizeof 0 fragments
            ++ ndcrash_out_daemon_do_unwinding ctx env (layout.decode fragments.flatten)
            ++ [Event.write clientsock [0], Event.close clientsock],
          returned := true }
      ∧ (ndcrash_out_daemon_process_client ctx layout clientsock
          (fragments.map RecvStep.recv_data ++ rest) env).trace.filter Event.isAttach
        = [Event.ptrace_attach (layout.decode fragments.flatten).tid] := by
  have hne : fragments ≠ [] := by
    intro h
    subst h
    simp at hsum
    omega
  have hloop := receive_loop_fragments ctx layout.sizeof clientsock rest fragments
    (List.replicate layout.sizeof 0) 0 hne hpos (by omega) (by simp)
  have hrun : ndcrash_out_daemon_process_client ctx layout clientsock
        (fragments.map RecvStep.recv_data ++ rest) env
      = { trace := read_requests ctx clientsock layout.sizeof 0 fragments
            ++ ndcrash_out_daemon_do_unwinding ctx env (layout.decode fragments.flatten)
            ++ [Event.write clientsock [0], Event.close clientsock],
          returned := true } := by
    unfold ndcrash_out_daemon_process_client
    rw [hloop]
    simp
  refine ⟨hrun, ?_⟩
  rw [hrun]
  simp [List.filter_append, List.filter_cons, filter_isAttach_read_requests,
    filter_isAttach_do_unwinding, Event.isAttach]

/-- While fewer bytes than one message have arrived, the loop goes on with
whatever comes next, at the offset reached and with a buffer of the same size. -/
theorem receive_loop_short (ctx : ndcrash_out_daemon_context) (sizeof : Nat)
    (clientsock : Int) (tail : List RecvStep) :
    ∀ (fragments : List (List Byte)) (buffer : List Byte) (received : Nat),
      received + fragments.flatten.length < sizeof → buffer.length = sizeof →
      ∃ stored : List Byte, stored.length = sizeof ∧
        receive_loop ctx sizeof clientsock (fragments.map RecvStep.recv_data ++ tail)
            buffer received
          = (read_requests ctx clientsock sizeof received fragments
              ++ (receive_loop ctx sizeof clientsock tail stored
                    (received + fragments.flatten.length)).1,
             (receive_loop ctx sizeof clientsock tail stored
                    (received + fragments.flatten.length)).2) := by
  intro fragments
  induction fragments with
  | nil =>
    intro buffer received _ hlen
    exact ⟨buffer, hlen, by simp [read_requests]⟩
  | cons fragment fragments ih =>
    intro buffer received hlt hlen
    simp only [List.flatten_cons, List.length_append] at hlt
    have htake : List.take (sizeof - received) fragment = fragment :=
      List.take_of_length_le (by omega)
    have hstored : (store_at buffer received fragment).length = sizeof := by
      simp only [store_at, List.length_append, List.length_take, List.length_drop]
      omega
    obtain ⟨stored, hs, hrec⟩ := ih (store_at buffer received fragment)
      (received + fragment.length) (by omega) hstored
    refine ⟨stored, hs, ?_⟩
    have hnow : received + fragment.length < sizeof := by omega
    simp only [List.map_cons, List.cons_append, receive_loop, htake, read_requests]
    rw [if_pos hnow]
    simp only [List.append_eq]
    rw [hrec]
    simp [Nat.add_assoc]

/-- C3: in `ndcrash_out_daemon_process_client`, after fragments that together are
shorter than one message, any number `zeros` of reads that return zero leave
the handler inside its loop: it has issued a further `select`, it has not
returned, and every call it has made is a `select` or a `recv`, so the
connection has not been closed. -/
theorem process_client_zero_read_stays_in_loop (ctx : ndcrash_out_daemon_context)
    (layout : MessageLayout) (clientsock : Int) (env : CaptureEnv)
    (fragments : List (List Byte)) (zeros : Nat)
    (hshort : fragments.flatten.length < layout.sizeof) :
    ndcrash_out_daemon_process_client ctx layout clientsock
        (fragments.map RecvStep.recv_data
          ++ List.replicate zeros (RecvStep.recv_data [])) env
      = { trace := read_requests ctx clientsock layout.sizeof 0
            (fragments ++ List.replicate zeros [])
            ++ [Event.select clientsock ctx.interruptor.1],
          returned := false } := by
  have hflat : (fragments ++ List.replicate zeros ([] : List Byte)).flatten.length
      = fragments.flatten.length := by
    induction zeros with
    | zero => simp
    | succ n ih =>
      have : List.replicate (n + 1) ([] : List Byte) = List.replicate n [] ++ [[]] := by
        rw [List.replicate_succ']
      rw [this, ← List.append_assoc, List.flatten_append, List.length_append, ih]
      simp
  obtain ⟨stored, _, hloop⟩ := receive_loop_short ctx layout.sizeof clientsock []
    (fragments ++ List.replicate zeros []) (List.replicate layout.sizeof 0) 0
    (by omega) (by simp)
  have hmap : List.map RecvStep.recv_data (fragments ++ List.replicate zeros []) ++ []
      = fragments.map RecvStep.recv_data ++ List.replicate zeros (RecvStep.recv_data []) := by
    simp
  rw [hmap] at hloop
  unfold ndcrash_out_daemon_process_client
  rw [hloop]
  simp [receive_loop]

/-- A negative read before the message is complete does end the session: the
handler closes the connection and returns, the capture pipeline is not run
and no acknowledgement is written. -/
theorem process_client_recv_error_closes (ctx : ndcrash_out_daemon_context)
    (layout : MessageLayout) (clientsock : Int) (env : CaptureEnv)
    (fragments : List (List Byte)) (rest : List RecvStep)
    (hshort : fragments.flatten.length < layout.sizeof) :
    ndcrash_out_daemon_process_client ctx layout clientsock
        (fragments.map RecvStep.recv_data ++ RecvStep.recv_error :: rest) env
      = { trace := read_requests ctx clientsock layout.sizeof 0 fragments
            ++ [Event.select clientsock ctx.interruptor.1,
                Event.recv clientsock fragments.flatten.length
                  (layout.sizeof - fragments.flatten.length),
                Event.close clientsock],
          returned := true } := by
  obtain ⟨stored, _, hloop⟩ := receive_loop_short ctx layout.sizeof clientsock
    (RecvStep.recv_error :: rest) fragments (List.replicate layout.sizeof 0) 0
    (by omega) (by simp)
  unfold ndcrash_out_daemon_process_client
  rw [hloop]
  simp [receive_loop]

/-! ## The lifecycle controller -/

/-- A start that gets as far as creating the thread: socket name not empty,
unwinder compiled in, pipe created, and the one `ndcrash_set_nonblock` call
whose result is checked succeeded. -/
theorem start_daemon_at_thread_creation (env : StartEnv) (args : StartArgs)
    (name : String) (f : FnPtr)
    (hname : args.socket_name = some name) (hne : name ≠ "")
    (hsup : env.unwinder_table args.unwinder = some f)
    (hpipe : 0 ≤ env.pipe)
    (hnonblock : env.ndcrash_set_nonblock (nonblock_argument env env.pipe_fds).1 = true) :
    ∃ ctx : ndcrash_out_daemon_context,
      ctx.callback_arg = args.callback_arg ∧ ctx.daemon_thread = 0
      ∧ ctx.interruptor = env.pipe_fds
      ∧ ctx.start_callback = args.start_callback ∧ ctx.stop_callback = args.stop_callback
      ∧ ctx.unwind_function = some f
      ∧ ndcrash_out_start_daemon env none args
        = (if env.pthread_create ≠ 0 then
            { result := ndcrash_error.ndcrash_error_thread, inst := some ctx,
              trace := [Event.ndcrash_out_fill_sockaddr name, Event.pipe]
                ++ (nonblock_argument env env.pipe_fds).2
                ++ [Event.ndcrash_set_nonblock (nonblock_argument env env.pipe_fds).1,
                    Event.pthread_create] }
          else
            { result := ndcrash_error.ndcrash_ok,
              inst := some { ctx with daemon_thread := env.thread_handle },
              trace := [Event.ndcrash_out_fill_sockaddr name, Event.pipe]
                ++ (nonblock_argument env env.pipe_fds).2
                ++ [Event.ndcrash_set_nonblock (nonblock_argument env env.pipe_fds).1,
                    Event.pthread_create] }) := by
  have hp : ¬ env.pipe < 0 := not_lt.mpr hpipe
  refine ⟨{ unwind_function := some f,
            log_file := (match args.log_file with
              | some log_file => if log_file.length ≠ 0 then some log_file else none
              | none => none),
            interruptor := env.pipe_fds,
            daemon_thread := 0,
            start_callback := args.start_callback,
            crash_callback := args.crash_callback,
            stop_callback := args.stop_callback,
            callback_arg := args.callback_arg,
            socket_address := env.ndcrash_out_fill_sockaddr name }, rfl, rfl, rfl, rfl, rfl, rfl, ?_⟩
  simp only [ndcrash_out_start_daemon, hname, hne, hsup, hp, hnonblock, if_false]
  by_cases ht : env.pthread_create = 0 <;> simp [ht]

/-- C4: when `pthread_create` fails in `ndcrash_out_start_daemon` (socket name not
empty, unwinder compiled in, pipe set up), the call returns
`ndcrash_error_thread` and the daemon singleton, empty before the call, is left
pointing at the context just built: `ndcrash_out_get_daemon_callbacks_arg`
returns the argument of the failed start, and every following start is
rejected as already initialized. -/
theorem start_daemon_thread_failure_keeps_context (env : StartEnv) (args : StartArgs)
    (name : String) (f : FnPtr)
    (hname : args.socket_name = some name) (hne : name ≠ "")
    (hsup : env.unwinder_table args.unwinder = some f)
    (hpipe : 0 ≤ env.pipe)
    (hnonblock : env.ndcrash_set_nonblock (nonblock_argument env env.pipe_fds).1 = true)
    (hthread : env.pthread_create ≠ 0) :
    (ndcrash_out_start_daemon env none args).result = ndcrash_error.ndcrash_error_thread
      ∧ (ndcrash_out_start_daemon env none args).inst ≠ none
      ∧ ndcrash_out_get_daemon_callbacks_arg (ndcrash_out_start_daemon env none args).inst
          = args.callback_arg
      ∧ ∀ (env2 : StartEnv) (args2 : StartArgs),
          (ndcrash_out_start_daemon env2 (ndcrash_out_start_daemon env none args).inst
            args2).result = ndcrash_error.ndcrash_error_already_initialized := by
  obtain ⟨ctx, harg, _, _, _, _, _, hrun⟩ :=
    start_daemon_at_thread_creation env args name f hname hne hsup hpipe hnonblock
  rw [if_pos hthread] at hrun
  rw [hrun]
  refine ⟨rfl, by simp, by simpa [ndcrash_out_get_daemon_callbacks_arg] using harg, ?_⟩
  intro env2 args2
  simp [ndcrash_out_start_daemon]

/-- The failures of `ndcrash_out_start_daemon` that do leave the singleton as it
was: a daemon already running (context untouched), an empty or missing socket
name, a failed `pipe`, a failed non-blocking check (no context afterwards). -/
theorem start_daemon_failures_rolled_back (env : StartEnv) (args : StartArgs) :
    (∀ ctx, (ndcrash_out_start_daemon env (some ctx) args).inst = some ctx)
      ∧ ((args.socket_name = none ∨ args.socket_name = some "") →
          (ndcrash_out_start_daemon env none args).inst = none)
      ∧ ((ndcrash_out_start_daemon env none args).result = ndcrash_error.ndcrash_error_pipe →
          (ndcrash_out_start_daemon env none args).inst = none) := by
  refine ⟨fun ctx => rfl, ?_, ?_⟩
  · rintro (h | h) <;> simp [ndcrash_out_start_daemon, h]
  · unfold ndcrash_out_start_daemon
    cases hname : args.socket_name with
    | none => simp
    | some name =>
      by_cases hne : name = ""
      · simp [hne]
      · cases hsup : env.unwinder_table args.unwinder with
        | none => simp [hne, hsup]
        | some f =>
          by_cases hp : env.pipe < 0
          · simp [hne, hsup, hp, ndcrash_out_stop_daemon, release_context]
          · by_cases hnb : env.ndcrash_set_nonblock (nonblock_argument env env.pipe_fds).1 = true
            · by_cases ht : env.pthread_create = 0 <;> simp [hne, hsup, hp, hnb, ht]
            · simp [hne, hsup, hp, hnb, ndcrash_out_stop_daemon, release_context]

/-- C5: `ndcrash_out_start_daemon` returns `ndcrash_error_already_initialized` when
a daemon instance exists; otherwise `ndcrash_error_socket_name` when the socket
name is null or empty; otherwise `ndcrash_error_not_supported` when the
selector is not compiled in, and then without creating a thread; otherwise
`ndcrash_error_pipe` when `pipe` fails; otherwise, the pipe being set up,
`ndcrash_error_thread` when `pthread_create` fails.  The five codes and
`ndcrash_ok` are pairwise distinct. -/
theorem start_daemon_failure_codes (env : StartEnv) (args : StartArgs) :
    (∀ ctx, (ndcrash_out_start_daemon env (some ctx) args).result
        = ndcrash_error.ndcrash_error_already_initialized)
      ∧ ((args.socket_name = none ∨ args.socket_name = some "") →
          (ndcrash_out_start_daemon env none args).result
            = ndcrash_error.ndcrash_error_socket_name)
      ∧ (∀ name, args.socket_name = some name → name ≠ "" →
          (env.unwinder_table args.unwinder = none →
            (ndcrash_out_start_daemon env none args).result
                = ndcrash_error.ndcrash_error_not_supported
              ∧ Event.pthread_create ∉ (ndcrash_out_start_daemon env none args).trace)
          ∧ (env.unwinder_table args.unwinder ≠ none → env.pipe < 0 →
            (ndcrash_out_start_daemon env none args).result
                = ndcrash_error.ndcrash_error_pipe)
          ∧ (env.unwinder_table args.unwinder ≠ none → 0 ≤ env.pipe →
            env.ndcrash_set_nonblock (nonblock_argument env env.pipe_fds).1 = true →
            env.pthread_create ≠ 0 →
            (ndcrash_out_start_daemon env none args).result
                = ndcrash_error.ndcrash_error_thread))
      ∧ [ndcrash_error.ndcrash_ok, ndcrash_error.ndcrash_error_already_initialized,
          ndcrash_error.ndcrash_error_socket_name, ndcrash_error.ndcrash_error_not_supported,
          ndcrash_error.ndcrash_error_pipe, ndcrash_error.ndcrash_error_thread].Nodup := by
  refine ⟨fun ctx => rfl, ?_, ?_, by decide⟩
  · rintro (h | h) <;> simp [ndcrash_out_start_daemon, h]
  · intro name hname hne
    refine ⟨?_, ?_, ?_⟩
    · intro hsup
      simp [ndcrash_out_start_daemon, hname, hne, hsup]
    · intro hsup hp
      cases hf : env.unwinder_table args.unwinder with
      | none => exact absurd hf hsup
      | some f => simp [ndcrash_out_start_daemon, hname, hne, hf, hp]
    · intro hsup hp hnb ht
      cases hf : env.unwinder_table args.unwinder with
      | none => exact absurd hf hsup
      | some f =>
        obtain ⟨ctx, _, _, _, _, _, _, hrun⟩ :=
          start_daemon_at_thread_creation env args name f hname hne hf hp hnb
        rw [hrun, if_pos ht]

/-- C6: `ndcrash_out_stop_daemon` returns false and changes nothing when no daemon
instance exists, and also when the instance has a thread handle and the
write of the wake-up byte to `interruptor[1]` fails; in every other call made
while an instance exists it returns true and clears the singleton, so that
`ndcrash_out_get_daemon_callbacks_arg` then returns the null pointer and a
following start is not rejected as already initialized. -/
theorem stop_daemon_outcomes (write_result : Int) (ctx : ndcrash_out_daemon_context) :
    ndcrash_out_stop_daemon write_result none = { result := false, inst := none, trace := [] }
      ∧ ((ctx.daemon_thread ≠ 0 ∧ write_result < 0) →
          (ndcrash_out_stop_daemon write_result (some ctx)).result = false
            ∧ (ndcrash_out_stop_daemon write_result (some ctx)).inst = some ctx)
      ∧ (¬ (ctx.daemon_thread ≠ 0 ∧ write_result < 0) →
          (ndcrash_out_stop_daemon write_result (some ctx)).result = true
            ∧ (ndcrash_out_stop_daemon write_result (some ctx)).inst = none
            ∧ ndcrash_out_get_daemon_callbacks_arg
                (ndcrash_out_stop_daemon write_result (some ctx)).inst = NULL
            ∧ ∀ (env : StartEnv) (args : StartArgs),
                (ndcrash_out_start_daemon env
                    (ndcrash_out_stop_daemon write_result (some ctx)).inst args).result
                  ≠ ndcrash_error.ndcrash_error_already_initialized) := by
  refine ⟨rfl, ?_, ?_⟩
  · rintro ⟨hthread, hwrite⟩
    simp [ndcrash_out_stop_daemon, hthread, hwrite]
  · intro hnot
    have hinst : (ndcrash_out_stop_daemon write_result (some ctx)).inst = none
        ∧ (ndcrash_out_stop_daemon write_result (some ctx)).result = true := by
      unfold ndcrash_out_stop_daemon
      by_cases hthread : ctx.daemon_thread = 0
      · simp [hthread, release_context]
      · have hwrite : ¬ write_result < 0 := fun h => hnot ⟨hthread, h⟩
        simp [hthread, hwrite, release_context]
    refine ⟨hinst.2, hinst.1, ?_, ?_⟩
    · rw [hinst.1]
      rfl
    · intro env args
      rw [hinst.1]
      unfold ndcrash_out_start_daemon
      cases hname : args.socket_name with
      | none => simp
      | some name =>
        by_cases hne : name = ""
        · simp [hne]
        · cases hsup : env.unwinder_table args.unwinder with
          | none => simp [hne, hsup]
          | some f =>
            by_cases hp : env.pipe < 0
            · simp [hne, hsup, hp]
            · by_cases hnb : env.ndcrash_set_nonblock (nonblock_argument env env.pipe_fds).1 = true
              · by_cases ht : env.pthread_create = 0 <;> simp [hne, hsup, hp, hnb, ht]
              · simp [hne, hsup, hp, hnb]

/-- C7: in `ndcrash_out_start_daemon`, when the pipe is created and its read end is
not descriptor 0, the only request for non-blocking mode is on descriptor 1,
whatever the two descriptors of the pipe are; and the start then succeeds as
soon as that one request and `pthread_create` succeed, whatever
`ndcrash_set_nonblock` would answer on the two ends of the pipe. -/
theorem start_daemon_nonblock_requested_on_one (env : StartEnv) (args : StartArgs)
    (name : String) (f : FnPtr)
    (hname : args.socket_name = some name) (hne : name ≠ "")
    (hsup : env.unwinder_table args.unwinder = some f)
    (hpipe : 0 ≤ env.pipe) (hread : env.pipe_fds.1 ≠ 0) :
    (ndcrash_out_start_daemon env none args).trace.filter Event.isSetNonblock
        = [Event.ndcrash_set_nonblock 1]
      ∧ (env.ndcrash_set_nonblock 1 = true → env.pthread_create = 0 →
          (ndcrash_out_start_daemon env none args).result = ndcrash_error.ndcrash_ok) := by
  have hp : ¬ env.pipe < 0 := not_lt.mpr hpipe
  have harg : nonblock_argument env env.pipe_fds = (1, []) := by
    simp [nonblock_argument, hread]
  constructor
  · unfold ndcrash_out_start_daemon
    by_cases hnb : env.ndcrash_set_nonblock 1 = true
    · by_cases ht : env.pthread_create = 0 <;>
        simp [hname, hne, hsup, hp, harg, hnb, ht, Event.isSetNonblock, List.filter_cons]
    · cases hlog : args.log_file with
      | none =>
        simp [hname, hne, hsup, hp, harg, hnb, hlog, Event.isSetNonblock, List.filter_cons,
          ndcrash_out_stop_daemon, release_context]
      | some log_file =>
        by_cases hlen : log_file.length = 0 <;>
          simp [hname, hne, hsup, hp, harg, hnb, hlog, hlen, Event.isSetNonblock,
            List.filter_cons, ndcrash_out_stop_daemon, release_context]
  · intro hnb ht
    simp [ndcrash_out_start_daemon, hname, hne, hsup, hp, harg, hnb, ht]

/-! ## The background thread -/

/-- C1 at a sample input: thread 42 is attached and the wait fails; the one
detach is requested on thread 42. -/
theorem do_unwinding_detach_iff_attached_witness :
    (ndcrash_out_daemon_do_unwinding sample_context sample_capture_no_stop
        sample_message).filter Event.isDetach = [Event.ptrace_detach 42] :=
  (do_unwinding_detach_iff_attached sample_context sample_capture_no_stop sample_message).1

/-- C8 at a sample input: everything succeeds and the report is descriptor 9;
the crash callback 8200 is invoked once with the log file path and the
argument 500. -/
theorem crash_callback_once_iff_witness :
    (ndcrash_out_daemon_do_unwinding sample_context sample_capture
        sample_message).filter Event.isCrashCallback
      = [Event.crash_callback 8200 (some "/data/crash.txt") 500] :=
  ((crash_callback_once_iff sample_context sample_capture sample_message).1
    "/data/crash.txt" 8200 (by decide) (by decide) rfl (by decide) rfl).1

/-- C10 at a sample input: attach and wait succeed, the unwinder 4096 is bound
and the log file is created on descriptor 9; the file is created, header,
unwind and the line " " go to descriptor 9, which is then closed, and the
detach comes last. -/
theorem do_unwinding_steps_in_order_witness :
    sample_capture.ptrace_attach sample_message.tid ≠ -1
      ∧ sample_context.unwind_function = some 4096
      ∧ 0 ≤ sample_capture.waitpid sample_message.tid
      ∧ sample_context.log_file = some "/data/crash.txt"
      ∧ ∃ callbacks, (∀ e ∈ callbacks, e.isCrashCallback = true) ∧
          ndcrash_out_daemon_do_unwinding sample_context sample_capture sample_message
            = [Event.ptrace_attach 42, Event.waitpid 42,
                Event.ndcrash_dump_create_file "/data/crash.txt",
                Event.ndcrash_dump_header 9 41 42 11 1 0 [1, 2],
                Event.unwind_function 4096 9 sample_message,
                Event.ndcrash_dump_write_line 9 " ",
                Event.close 9]
              ++ callbacks ++ [Event.ptrace_detach 42] :=
  ⟨by decide, rfl, by decide, rfl,
    (do_unwinding_steps_in_order sample_context sample_capture sample_message 4096
      (by decide) rfl).2.2 "/data/crash.txt" (by decide) rfl⟩

/-- C2 at a sample input: a four-byte message arrives in three fragments on
socket 6. -/
theorem process_client_full_message_witness :
    ndcrash_out_daemon_process_client sample_context sample_layout 6
        [RecvStep.recv_data [41], RecvStep.recv_data [42, 11], RecvStep.recv_data [1]]
        sample_capture
      = { trace := [Event.select 6 3, Event.recv 6 0 4, Event.select 6 3, Event.recv 6 1 3,
            Event.select 6 3, Event.recv 6 3 1,
            Event.ptrace_attach 42, Event.waitpid 42,
            Event.ndcrash_dump_create_file "/data/crash.txt",
            Event.ndcrash_dump_header 9 41 42 11 1 0 [],
            Event.unwind_function 4096 9
              { pid := 41, tid := 42, signo := 11, si_code := 1, faultaddr := 0, context := [] },
            Event.ndcrash_dump_write_line 9 " ", Event.close 9,
            Event.crash_callback 8200 (some "/data/crash.txt") 500,
            Event.ptrace_detach 42,
            Event.write 6 [0], Event.close 6],
          returned := true } :=
  (process_client_full_message sample_context sample_layout 6 sample_capture
    [[41], [42, 11], [1]] [] (by decide) (by decide) (by decide)).1

/-- C3 at a sample input: one byte of four arrives on socket 6, then two reads
return zero; the handler is in `select` again, the connection still open. -/
theorem process_client_zero_read_stays_in_loop_witness :
    ndcrash_out_daemon_process_client sample_context sample_layout 6
        [RecvStep.recv_data [41], RecvStep.recv_data [], RecvStep.recv_data []]
        sample_capture
      = { trace := [Event.select 6 3, Event.recv 6 0 4, Event.select 6 3, Event.recv 6 1 3,
            Event.select 6 3, Event.recv 6 1 3, Event.select 6 3],
          returned := false } :=
  process_client_zero_read_stays_in_loop sample_context sample_layout 6 sample_capture
    [[41]] 2 (by decide)

/-- C4 at a sample input: `pthread_create` fails with 11; the start returns
`ndcrash_error_thread`, the argument 500 is still handed out and a second,
well-formed start is rejected. -/
theorem start_daemon_thread_failure_keeps_context_witness :
    (ndcrash_out_start_daemon sample_env_thread_failure none sample_args).result
        = ndcrash_error.ndcrash_error_thread
      ∧ ndcrash_out_get_daemon_callbacks_arg
          (ndcrash_out_start_daemon sample_env_thread_failure none sample_args).inst = 500
      ∧ (ndcrash_out_start_daemon sample_env
          (ndcrash_out_start_daemon sample_env_thread_failure none sample_args).inst
          sample_args).result = ndcrash_error.ndcrash_error_already_initialized :=
  have h := start_daemon_thread_failure_keeps_context sample_env_thread_failure sample_args
    "ndcrash" 4096 rfl (by decide) rfl (by decide) rfl (by decide)
  ⟨h.1, h.2.2.1, h.2.2.2 sample_env sample_args⟩

/-- C5 at a sample input: the selector 2 is not compiled in; the start returns
`ndcrash_error_not_supported` and creates no thread. -/
theorem start_daemon_failure_codes_witness :
    (ndcrash_out_start_daemon sample_env none { sample_args with unwinder := 2 }).result
        = ndcrash_error.ndcrash_error_not_supported
      ∧ Event.pthread_create ∉
          (ndcrash_out_start_daemon sample_env none { sample_args with unwinder := 2 }).trace :=
  ((start_daemon_failure_codes sample_env { sample_args with unwinder := 2 }).2.2.1
    "ndcrash" rfl (by decide)).1 rfl

/-- C6, the claim as first stated fails: the daemon is running and the write
of the wake-up byte returns -1; stop returns false and the singleton still
holds the context, whose argument 500 is still handed out. -/
theorem stop_daemon_write_failure_counterexample :
    (ndcrash_out_stop_daemon (-1) (some sample_context)).result = false
      ∧ (ndcrash_out_stop_daemon (-1) (some sample_context)).inst = some sample_context
      ∧ ndcrash_out_get_daemon_callbacks_arg
          (ndcrash_out_stop_daemon (-1) (some sample_context)).inst = 500 := by
  refine ⟨rfl, rfl, rfl⟩

/-- C6 at a sample input: the daemon is running and the write succeeds; stop
returns true and clears the singleton. -/
theorem stop_daemon_outcomes_witness :
    (ndcrash_out_stop_daemon 1 (some sample_context)).result = true
      ∧ (ndcrash_out_stop_daemon 1 (some sample_context)).inst = none :=
  have h := (stop_daemon_outcomes 1 sample_context).2.2 (by decide)
  ⟨h.1, h.2.1⟩

/-- C7 at a sample input: the pipe is on descriptors 3 and 4 and non-blocking
mode cannot be set on either; the only request is on descriptor 1 and the
start returns `ndcrash_ok`. -/
theorem start_daemon_nonblock_requested_on_one_witness :
    sample_env_nonblock_failure.pipe_fds = (3, 4)
      ∧ sample_env_nonblock_failure.ndcrash_set_nonblock 3 = false
      ∧ sample_env_nonblock_failure.ndcrash_set_nonblock 4 = false
      ∧ (ndcrash_out_start_daemon sample_env_nonblock_failure none sample_args).trace.filter
          Event.isSetNonblock = [Event.ndcrash_set_nonblock 1]
      ∧ (ndcrash_out_start_daemon sample_env_nonblock_failure none sample_args).result
          = ndcrash_error.ndcrash_ok :=
  have h := start_daemon_nonblock_requested_on_one sample_env_nonblock_failure sample_args
    "ndcrash" 4096 rfl (by decide) rfl (by decide) (by decide)
  ⟨rfl, by decide, by decide, h.1, h.2 (by decide) rfl⟩

end NDCrash
